import Mathlib

/-!
Formal model of the risk-fusion engine and the signal detectors of a
VM / remote-access detection system, together with proofs of the
behavioural properties stated in its specification.

Conventions of the embedding:
* Python numbers (ints and floats) are modelled as exact rationals `ℚ`;
  every arithmetic operation in the source is exact decimal arithmetic.
* `round(x, 2)` is modelled by `round2` (round half to even, Python's
  rounding mode), and `int(x)` by `pyint` (truncation toward zero).
* A Python dict that may be missing is an `Option` of a structure; a
  `.get(key, default)` access with a non-trivial default is an `Option`
  field read with `Option.getD`.  Keys read with default `0`/`False` are
  plain fields (an absent key behaves exactly like the default value).
* The human-readable trigger strings built by the engine are modelled by
  the inductive `Trigger`, one constructor per message shape, keeping the
  data interpolated into the message.
-/

namespace VMDetection

/-- Truncation toward zero of a rational, modelling Python `int(x)`. -/
def pyint (q : ℚ) : ℤ := if q < 0 then -⌊-q⌋ else ⌊q⌋

/-- Round half to even to the nearest integer, modelling Python `round(x)`. -/
def rnd (q : ℚ) : ℤ :=
  if q - ⌊q⌋ < 1/2 then ⌊q⌋
  else if 1/2 < q - ⌊q⌋ then ⌊q⌋ + 1
  else if ⌊q⌋ % 2 = 0 then ⌊q⌋ else ⌊q⌋ + 1

/-- Python `round(x, 2)`: round to the nearest multiple of `1/100`. -/
def round2 (q : ℚ) : ℚ := (rnd (q * 100) : ℚ) / 100

/-- Substring test, modelling the Python `in` operator on strings. -/
def strContains (s pat : String) : Bool := (s.splitOn pat).length > 1

/-! ## Data model of the fusion engine (server/engine/fusion_engine.py)

The input of `DecisionFusionEngine.analyze` is a dict with up to six
domain sub-dicts.  Each sub-dict is modelled by a structure holding
exactly the keys the engine reads. -/

/-- Severity levels produced by the engine. -/
inductive RiskLevel
  | LOW
  | MEDIUM
  | HIGH
  | CRITICAL
deriving DecidableEq, Repr

/-- Recommended mitigation actions produced by the engine. -/
inductive Action
  | TERMINATE_SESSION
  | FLAG_ADMIN
  | CAPTURE_EVIDENCE
  | WARN_USER
  | ENABLE_STRICT_LOGGING
  | DISABLE_CLIPBOARD
  | LOG_EVENT
  | INCREASE_SAMPLING_RATE
  | CONTINUE_MONITORING
deriving DecidableEq, Repr

/-- The `vm_data` dict: keys `is_vm`, `confidence` (read with default 50,
hence an `Option`), `indicators`. -/
structure VmData where
  is_vm : Bool
  confidence : Option ℚ
  indicators : List String
deriving DecidableEq

/-- The `remote_data` dict: keys `remote_detected`, `risk_score`
(default 0), `findings`. -/
structure RemoteData where
  remote_detected : Bool
  risk_score : ℚ
  findings : List String
deriving DecidableEq

/-- The `screen_data` dict: keys `screen_sharing_risk`, `details`. -/
structure ScreenData where
  screen_sharing_risk : Bool
  details : List String
deriving DecidableEq

/-- The `behavior_data` dict: keys `behavior_anomaly`, `anomaly_score`
(default 0). -/
structure BehaviorData where
  behavior_anomaly : Bool
  anomaly_score : ℚ
deriving DecidableEq

/-- The `network_data` dict: keys `network_suspicious`, `risk_score`
(default 0), `findings`. -/
structure NetworkData where
  network_suspicious : Bool
  risk_score : ℚ
  findings : List String
deriving DecidableEq

/-- The `process_data` dict: key `process_suspicious`. -/
structure ProcessData where
  process_suspicious : Bool
deriving DecidableEq

/-- The full input map of `analyze`; every domain dict may be absent
(`data.get(domain, {})` in the source). -/
structure FusionInput where
  vm_data : Option VmData
  remote_data : Option RemoteData
  screen_data : Option ScreenData
  behavior_data : Option BehaviorData
  network_data : Option NetworkData
  process_data : Option ProcessData
deriving DecidableEq

/-- Trigger summaries: one constructor per message shape appended by
`analyze`, keeping the interpolated data. -/
inductive Trigger
  | vmDetected (detail : String)
  | remoteTool (finding : String)
  | remoteAccess (risk : ℚ)
  | multiMonitor
  | screenSharing
  | behavioralAnomaly (score : ℚ)
  | networkAnomaly (finding : String)
  | suspiciousNetwork
  | maliciousProcess
deriving DecidableEq

/-- The verdict returned by `analyze`. -/
structure Verdict where
  risk_score : ℚ
  risk_level : RiskLevel
  triggers : List Trigger
  actions : List Action
deriving DecidableEq

/-! ## The fusion engine -/

/-- Weight for the VM domain (`self.weights['vm']`). -/
def weight_vm : ℚ := 35/100

/-- Weight for the remote-access domain (`self.weights['remote']`). -/
def weight_remote : ℚ := 40/100

/-- Weight for the screen-sharing domain (`self.weights['screen']`). -/
def weight_screen : ℚ := 20/100

/-- Weight for the behavioural-anomaly domain (`self.weights['anomaly']`). -/
def weight_anomaly : ℚ := 15/100

/-- Weight for the network/IDS domain (`self.weights['ids']`). -/
def weight_ids : ℚ := 25/100

/-- Section 1 of `analyze` (VM analysis, lines 22-27): score contribution. -/
def vmSection (o : Option VmData) : ℚ :=
  let vm_res := o.getD ⟨false, none, []⟩
  if vm_res.is_vm then weight_vm * (vm_res.confidence.getD 50 / 100) * 100 else 0

/-- Section 2 of `analyze` (remote access, lines 34-38): score contribution. -/
def remoteSection (o : Option RemoteData) : ℚ :=
  let remote_res := o.getD ⟨false, 0, []⟩
  if remote_res.remote_detected then weight_remote * remote_res.risk_score else 0

/-- Section 3 of `analyze` (screen sharing, lines 48-51): score contribution. -/
def screenSection (o : Option ScreenData) : ℚ :=
  let screen_res := o.getD ⟨false, []⟩
  if screen_res.screen_sharing_risk then weight_screen * 100 else 0

/-- Section 4 of `analyze` (behavioural anomaly, lines 58-62): score contribution. -/
def behaviorSection (o : Option BehaviorData) : ℚ :=
  let beh_res := o.getD ⟨false, 0⟩
  if beh_res.behavior_anomaly then weight_anomaly * beh_res.anomaly_score else 0

/-- Section 5 of `analyze` (network/IDS, lines 65-70): score contribution. -/
def networkSection (o : Option NetworkData) : ℚ :=
  let net_res := o.getD ⟨false, 0, []⟩
  if net_res.network_suspicious then weight_ids * net_res.risk_score else 0

/-- Section 6 of `analyze` (process forensics, lines 78-81): flat score penalty. -/
def processSection (o : Option ProcessData) : ℚ :=
  let proc_res := o.getD ⟨false⟩
  if proc_res.process_suspicious then 15 else 0

/-- The running `score` accumulated by `analyze` over its six sections
(before the cap).  Sections contribute in source order. -/
def rawScore (d : FusionInput) : ℚ :=
  vmSection d.vm_data + remoteSection d.remote_data + screenSection d.screen_data +
    behaviorSection d.behavior_data + networkSection d.network_data +
    processSection d.process_data

/-- `total_risk = min(score, 100)`. -/
def totalRisk (d : FusionInput) : ℚ := min (rawScore d) 100

/-- Trigger messages appended by section 1 of `analyze`. -/
def vmTriggers (o : Option VmData) : List Trigger :=
  let vm_res := o.getD ⟨false, none, []⟩
  if vm_res.is_vm then
    [Trigger.vmDetected (vm_res.indicators.headD "Generic VM Signatures")]
  else []

/-- Trigger messages appended by section 2 of `analyze`. -/
def remoteTriggers (o : Option RemoteData) : List Trigger :=
  let remote_res := o.getD ⟨false, 0, []⟩
  if remote_res.remote_detected then
    match remote_res.findings.filter (fun f => strContains f "Remote Tools") with
    | t :: _ => [Trigger.remoteTool t]
    | [] => [Trigger.remoteAccess remote_res.risk_score]
  else []

/-- Trigger messages appended by section 3 of `analyze`. -/
def screenTriggers (o : Option ScreenData) : List Trigger :=
  let screen_res := o.getD ⟨false, []⟩
  if screen_res.screen_sharing_risk then
    if screen_res.details.any (fun s => strContains s.toLower "display") then
      [Trigger.multiMonitor]
    else
      [Trigger.screenSharing]
  else []

/-- Trigger messages appended by section 4 of `analyze`. -/
def behaviorTriggers (o : Option BehaviorData) : List Trigger :=
  let beh_res := o.getD ⟨false, 0⟩
  if beh_res.behavior_anomaly then [Trigger.behavioralAnomaly beh_res.anomaly_score] else []

/-- Trigger messages appended by section 5 of `analyze`. -/
def networkTriggers (o : Option NetworkData) : List Trigger :=
  let net_res := o.getD ⟨false, 0, []⟩
  if net_res.network_suspicious then
    match net_res.findings with
    | f :: _ => [Trigger.networkAnomaly f]
    | [] => [Trigger.suspiciousNetwork]
  else []

/-- Trigger messages appended by section 6 of `analyze`. -/
def processTriggers (o : Option ProcessData) : List Trigger :=
  let proc_res := o.getD ⟨false⟩
  if proc_res.process_suspicious then [Trigger.maliciousProcess] else []

/-- The `triggers` list accumulated by `analyze`, in source order. -/
def triggersOf (d : FusionInput) : List Trigger :=
  vmTriggers d.vm_data ++ remoteTriggers d.remote_data ++ screenTriggers d.screen_data ++
    behaviorTriggers d.behavior_data ++ networkTriggers d.network_data ++
    processTriggers d.process_data

/-- `DecisionFusionEngine.analyze` (fusion_engine.py lines 18-106). -/
def analyze (d : FusionInput) : Verdict :=
  let total := totalRisk d
  if 75 ≤ total then
    ⟨round2 total, RiskLevel.CRITICAL, triggersOf d,
      [Action.TERMINATE_SESSION, Action.FLAG_ADMIN, Action.CAPTURE_EVIDENCE]⟩
  else if 50 ≤ total then
    ⟨round2 total, RiskLevel.HIGH, triggersOf d,
      [Action.WARN_USER, Action.ENABLE_STRICT_LOGGING, Action.DISABLE_CLIPBOARD]⟩
  else if 25 ≤ total then
    ⟨round2 total, RiskLevel.MEDIUM, triggersOf d,
      [Action.LOG_EVENT, Action.INCREASE_SAMPLING_RATE]⟩
  else
    ⟨round2 total, RiskLevel.LOW, triggersOf d,
      [Action.CONTINUE_MONITORING]⟩

/-- The all-absent input map. -/
def noData : FusionInput := ⟨none, none, none, none, none, none⟩

/-! ## Statements of the specification, as written

These two functions transcribe the level table and the action table of
the specification (§4.3), to be compared with what `analyze` computes. -/

/-- The level mapping as the specification states it: inclusive lower
bounds 75 / 50 / 25. -/
def specLevelOf (s : ℚ) : RiskLevel :=
  if 75 ≤ s then RiskLevel.CRITICAL
  else if 50 ≤ s then RiskLevel.HIGH
  else if 25 ≤ s then RiskLevel.MEDIUM
  else RiskLevel.LOW

/-- The action table as the specification states it. -/
def specActionsOf : RiskLevel → List Action
  | RiskLevel.CRITICAL => [Action.TERMINATE_SESSION, Action.FLAG_ADMIN, Action.CAPTURE_EVIDENCE]
  | RiskLevel.HIGH => [Action.WARN_USER, Action.ENABLE_STRICT_LOGGING, Action.DISABLE_CLIPBOARD]
  | RiskLevel.MEDIUM => [Action.LOG_EVENT, Action.INCREASE_SAMPLING_RATE]
  | RiskLevel.LOW => [Action.CONTINUE_MONITORING]

/-- Replace every absent domain dict by an explicit non-triggering
zero-score dict (the defaults `analyze` itself substitutes). -/
def zeroFill (d : FusionInput) : FusionInput :=
  ⟨some (d.vm_data.getD ⟨false, none, []⟩), some (d.remote_data.getD ⟨false, 0, []⟩),
   some (d.screen_data.getD ⟨false, []⟩), some (d.behavior_data.getD ⟨false, 0⟩),
   some (d.network_data.getD ⟨false, 0, []⟩), some (d.process_data.getD ⟨false⟩)⟩

/-- Drop the VM dict unless it triggers. -/
def keepVm : Option VmData → Option VmData
  | some v => if v.is_vm then some v else none
  | none => none

/-- Drop the remote dict unless it triggers. -/
def keepRemote : Option RemoteData → Option RemoteData
  | some v => if v.remote_detected then some v else none
  | none => none

/-- Drop the screen dict unless it triggers. -/
def keepScreen : Option ScreenData → Option ScreenData
  | some v => if v.screen_sharing_risk then some v else none
  | none => none

/-- Drop the behaviour dict unless it triggers. -/
def keepBehavior : Option BehaviorData → Option BehaviorData
  | some v => if v.behavior_anomaly then some v else none
  | none => none

/-- Drop the network dict unless it triggers. -/
def keepNetwork : Option NetworkData → Option NetworkData
  | some v => if v.network_suspicious then some v else none
  | none => none

/-- Drop the process dict unless it triggers. -/
def keepProcess : Option ProcessData → Option ProcessData
  | some v => if v.process_suspicious then some v else none
  | none => none

/-- Keep only the present, triggered domain results. -/
def keepTriggered (d : FusionInput) : FusionInput :=
  ⟨keepVm d.vm_data, keepRemote d.remote_data, keepScreen d.screen_data,
   keepBehavior d.behavior_data, keepNetwork d.network_data, keepProcess d.process_data⟩

/-! ## Signal detectors

Each detector's `detect()` runs a fixed set of sub-checks against OS
facts (process lists, registry keys, subprocess output, display counters)
and then aggregates fixed point values.  The sub-check outcomes are the
parameters of the aggregation functions below, which embed the
aggregation bodies of the corresponding `detect()` / `analyze()` methods
verbatim; the network and behaviour detectors compute scores from the
fact lists themselves, so those take the lists as parameters. -/

/-- Result of `VMDetector.detect` (cli-tool/vm_detector.py lines 120-159). -/
structure VmDetectResult where
  is_vm : Bool
  confidence : ℕ
deriving DecidableEq

/-- `VMDetector.detect`: processes 30, BIOS vendor 35, MAC prefixes 20,
registry keys 10, CPU flags 5; `is_vm = confidence > 30` is set before
the cap at 100. -/
def vmDetect (proc vendor mac reg cpu : Bool) : VmDetectResult :=
  let confidence : ℕ :=
    (if proc then 30 else 0) + (if vendor then 35 else 0) + (if mac then 20 else 0) +
      (if reg then 10 else 0) + (if cpu then 5 else 0)
  ⟨confidence > 30, min confidence 100⟩

/-- Result of `RemoteAccessDetector.detect` (remote_detector.py lines 98-132). -/
structure RemoteDetectResult where
  remote_detected : Bool
  risk_score : ℕ
deriving DecidableEq

/-- `RemoteAccessDetector.detect`: remote processes 40, RDP session 35,
suspicious connections 20, registry 5; `remote_detected = risk_score > 30`
is set before the cap at 100. -/
def remoteDetect (proc rdp net reg : Bool) : RemoteDetectResult :=
  let risk : ℕ := (if proc then 40 else 0) + (if rdp then 35 else 0) +
    (if net then 20 else 0) + (if reg then 5 else 0)
  ⟨risk > 30, min risk 100⟩

/-- Result of `ScreenSharingDetector.detect` (vm_detector.py lines 313-334). -/
structure ScreenDetectResult where
  screen_sharing_risk : Bool
  risk_level : ℕ
deriving DecidableEq

/-- `ScreenSharingDetector.detect`: more than one display 25, sharing
process 40; trigger at `risk_level > 30`; no cap is applied. -/
def screenDetect (displayCount : ℕ) (sharing : Bool) : ScreenDetectResult :=
  let risk : ℕ := (if displayCount > 1 then 25 else 0) + (if sharing then 40 else 0)
  ⟨risk > 30, risk⟩

/-- Result of `ProcessAnalyzer.analyze` (system_forensics.py lines 109-141). -/
structure ProcessDetectResult where
  process_suspicious : Bool
  risk_score : ℕ
deriving DecidableEq

/-- `ProcessAnalyzer.analyze`: suspicious names / temp paths 40, hidden
processes 20, injection indicators 30; cap at 100, then
`process_suspicious = risk_score > 30`. -/
def processAnalyze (susp hidden inject : Bool) : ProcessDetectResult :=
  let risk : ℕ := (if susp then 40 else 0) + (if hidden then 20 else 0) +
    (if inject then 30 else 0)
  ⟨min risk 100 > 30, min risk 100⟩

/-- Result of `SystemIntegrityChecker.analyze` (system_forensics.py
lines 213-245). -/
structure IntegrityResult where
  integrity_compromised : Bool
  risk_score : ℕ
deriving DecidableEq

/-- `SystemIntegrityChecker.analyze`: startup items 15, drivers 25,
services 10; cap at 100, then `integrity_compromised = risk_score > 30`. -/
def integrityAnalyze (startup driver service : Bool) : IntegrityResult :=
  let risk : ℕ := (if startup then 15 else 0) + (if driver then 25 else 0) +
    (if service then 10 else 0)
  ⟨min risk 100 > 30, min risk 100⟩

/-- One established entry of `psutil.net_connections` as the network
analyzer reads it; the remote address may be absent ("N/A"). -/
structure NetConn where
  local_port : ℕ
  remote_ip : Option String
  remote_port : Option ℕ
deriving DecidableEq

/-- The keys of `NetworkAnalyzer.suspicious_ports`. -/
def suspiciousPorts : List ℕ :=
  [3389, 5900, 5800, 5938, 7070, 22, 23, 4899, 6129, 5631, 5632, 8080, 1080, 9050]

/-- `check_suspicious_connections`: number of findings (one per suspicious
local port plus one per suspicious remote port). -/
def suspiciousConnFindings (conns : List NetConn) : ℕ :=
  (conns.map (fun c =>
    (if c.local_port ∈ suspiciousPorts then 1 else 0) +
      (match c.remote_port with
       | some p => if p ∈ suspiciousPorts then 1 else 0
       | none => 0))).sum

/-- The remote IPs of the connection list (skipping absent addresses). -/
def remoteIps (conns : List NetConn) : List String := conns.filterMap (fun c => c.remote_ip)

/-- `analyze_connection_patterns` rule 1: number of distinct remote IPs
with more than five connections (15 points each). -/
def ipsOverFive (conns : List NetConn) : ℕ :=
  ((remoteIps conns).dedup.filter (fun ip => (remoteIps conns).count ip > 5)).length

/-- `analyze_connection_patterns` rule 2: connections whose remote port is
above 10000. -/
def highPortCount (conns : List NetConn) : ℕ :=
  (conns.filter (fun c => match c.remote_port with
    | some p => p > 10000
    | none => false)).length

/-- The private-network IP patterns of rule 3. -/
def privatePatterns : List String := ["192.168.", "10.", "172.16.", "172.17.", "172.18."]

/-- `analyze_connection_patterns` rule 3: connections to private-network
remote addresses. -/
def privateConnCount (conns : List NetConn) : ℕ :=
  ((remoteIps conns).filter (fun ip => privatePatterns.any (fun p => ip.startsWith p))).length

/-- The `anomaly_score` of `analyze_connection_patterns` (capped at 100). -/
def patternScore (conns : List NetConn) : ℕ :=
  min (15 * ipsOverFive conns + (if highPortCount conns > 10 then 10 else 0) +
    (if privateConnCount conns > 3 then 20 else 0)) 100

/-- Whether `analyze_connection_patterns` produced any indicator. -/
def patternIndicators (conns : List NetConn) : Bool :=
  ipsOverFive conns > 0 || highPortCount conns > 10 || privateConnCount conns > 3

/-- The `anomaly_score` of `measure_bandwidth` from the sampled rates in
KB/s (capped at 100): upload above 500 gives 25, download above 1000
gives 15, combined above 1500 gives 20. -/
def bandwidthScore (send recv : ℚ) : ℕ :=
  min ((if send > 500 then 25 else 0) + (if recv > 1000 then 15 else 0) +
    (if send + recv > 1500 then 20 else 0)) 100

/-- Whether `measure_bandwidth` produced any indicator. -/
def bandwidthIndicators (send recv : ℚ) : Bool :=
  decide (send > 500) || decide (recv > 1000) || decide (send + recv > 1500)

/-- Result of `NetworkAnalyzer.detect` (network_detector.py lines 176-221). -/
structure NetworkDetectResult where
  network_suspicious : Bool
  risk_score : ℕ
deriving DecidableEq

/-- `NetworkAnalyzer.detect`: 35 for suspicious ports, plus the pattern
score when its indicators fired, plus the bandwidth score when measured
and its indicators fired; cap at 100, then trigger at `> 30`. -/
def networkDetect (conns : List NetConn) (measureBandwidth : Bool) (send recv : ℚ) :
    NetworkDetectResult :=
  let risk : ℕ := (if suspiciousConnFindings conns > 0 then 35 else 0) +
    (if patternIndicators conns then patternScore conns else 0) +
    (if measureBandwidth && bandwidthIndicators send recv then bandwidthScore send recv else 0)
  ⟨min risk 100 > 30, min risk 100⟩

/-! ## Behavioural anomaly detector (behaviour_detector.py) -/

/-- Arithmetic mean, `statistics.mean`. -/
def mean (xs : List ℚ) : ℚ := xs.sum / xs.length

/-- Sample variance, `statistics.variance` (denominator `n - 1`). -/
def svariance (xs : List ℚ) : ℚ :=
  (xs.map (fun x => (x - mean xs) ^ 2)).sum / ((xs.length : ℚ) - 1)

/-- One buffered mouse event, with its coordinates and whether it was a
move (as opposed to a click). -/
structure MouseEvent where
  x : ℚ
  y : ℚ
  isMove : Bool
deriving DecidableEq

/-- Event-list read at an index (the indices used are always in bounds). -/
def evAt (es : List MouseEvent) (i : ℕ) : MouseEvent := es.getD i ⟨0, 0, false⟩

/-- Mouse rule 3: over `i < len - 3`, count 3-point segments starting at a
move event whose two slopes agree within 0.01 (both `dx` non-zero). -/
def straightLineCount (es : List MouseEvent) : ℕ :=
  ((List.range (es.length - 3)).filter (fun i =>
    (evAt es i).isMove &&
      (let dx1 := (evAt es (i + 1)).x - (evAt es i).x
       let dy1 := (evAt es (i + 1)).y - (evAt es i).y
       let dx2 := (evAt es (i + 2)).x - (evAt es (i + 1)).x
       let dy2 := (evAt es (i + 2)).y - (evAt es (i + 1)).y
       !(dx1 == 0) && !(dx2 == 0) && decide (|dy1 / dx1 - dy2 / dx2| < 1/100)))).length

/-- Mouse rule 4: over `i < len - 1`, count adjacent speed deltas whose
absolute value exceeds 500. -/
def rapidChanges (speeds : List ℚ) : ℕ :=
  ((List.range (speeds.length - 1)).filter (fun i =>
    decide (|speeds.getD i 0 - speeds.getD (i + 1) 0| > 500))).length

/-- Analysis result of one input side (mouse or keyboard). -/
structure SideAnalysis where
  sufficient_data : Bool
  anomaly_score : ℤ
deriving DecidableEq

/-- The `anomaly_score` accumulated by `analyze_mouse_behavior` before the
cap: rule 1 (speed variance below 10, needs more than 20 samples) 25,
rule 2 (mean speed above 3000) 20, rule 3 (straight-segment fraction
above 0.7, needs more than 20 events) 15, rule 4 (rapid-change fraction
above 0.4, needs more than 10 samples) 20. -/
def mouseScoreRaw (speeds : List ℚ) (events : List MouseEvent) : ℤ :=
  (if speeds.length > 20 ∧ svariance speeds < 10 then 25 else 0) +
    (if mean speeds > 3000 then 20 else 0) +
    (if events.length > 20 ∧
        (straightLineCount events : ℚ) / ((events.length : ℚ) - 3) > 7/10 then 15 else 0) +
    (if speeds.length > 10 ∧
        (rapidChanges speeds : ℚ) / ((speeds.length : ℚ) - 1) > 2/5 then 20 else 0)

/-- `BehaviorMonitor.analyze_mouse_behavior` (lines 130-196): fewer than
10 speed samples is insufficient data with score 0; otherwise the rule
sum capped at 100. -/
def analyzeMouseBehavior (speeds : List ℚ) (events : List MouseEvent) : SideAnalysis :=
  if speeds.length < 10 then ⟨false, 0⟩
  else ⟨true, min (mouseScoreRaw speeds events) 100⟩

/-- Keyboard rule 3 counter: intervals above half a second. -/
def highLatencyCount (intervals : List ℚ) : ℕ :=
  (intervals.filter (fun i => decide (i > 1/2))).length

/-- Keyboard rule 4 counter: over `i < len - 5`, 5-interval windows whose
every entry is below 0.03. -/
def burstCount (intervals : List ℚ) : ℕ :=
  ((List.range (intervals.length - 5)).filter (fun i =>
    ((intervals.drop i).take 5).all (fun v => decide (v < 3/100)))).length

/-- The `anomaly_score` accumulated by `analyze_keyboard_behavior` before
the cap: rule 1 (interval variance below 0.001, needs more than 15
samples) 30, rule 2 (mean interval below 0.05) 25, rule 3 (high-latency
fraction above 0.3, needs more than 20 samples) 20, rule 4 (more than 3
burst windows, needs more than 10 samples) 15. -/
def keyboardScoreRaw (intervals : List ℚ) : ℤ :=
  (if intervals.length > 15 ∧ svariance intervals < 1/1000 then 30 else 0) +
    (if mean intervals < 1/20 then 25 else 0) +
    (if intervals.length > 20 ∧
        (highLatencyCount intervals : ℚ) > (intervals.length : ℚ) * (3/10) then 20 else 0) +
    (if intervals.length > 10 ∧ burstCount intervals > 3 then 15 else 0)

/-- `BehaviorMonitor.analyze_keyboard_behavior` (lines 198-253). -/
def analyzeKeyboardBehavior (intervals : List ℚ) : SideAnalysis :=
  if intervals.length < 10 then ⟨false, 0⟩
  else ⟨true, min (keyboardScoreRaw intervals) 100⟩

/-- Result of `BehaviorMonitor.detect` (lines 255-301). -/
structure BehaviorDetectResult where
  behavior_anomaly : Bool
  anomaly_score : ℤ
deriving DecidableEq

/-- `BehaviorMonitor.detect`: each sufficient side adds half of its
(capped) sub-score; the total is truncated to int and capped at 100; the
trigger threshold is 40. -/
def behaviorDetect (speeds : List ℚ) (events : List MouseEvent) (intervals : List ℚ) :
    BehaviorDetectResult :=
  let m := analyzeMouseBehavior speeds events
  let k := analyzeKeyboardBehavior intervals
  let total : ℚ := (if m.sufficient_data then (m.anomaly_score : ℚ) * (1/2) else 0) +
    (if k.sufficient_data then (k.anomaly_score : ℚ) * (1/2) else 0)
  let score : ℤ := min (pyint total) 100
  ⟨score > 40, score⟩

/-- The behaviour dict as the fusion engine reads it, built from a
`BehaviorMonitor.detect` result. -/
def behaviorDataOf (r : BehaviorDetectResult) : BehaviorData :=
  ⟨r.behavior_anomaly, (r.anomaly_score : ℚ)⟩

/-- The contribution of mouse rules 2-4 alone, stated for comparison with
rule 1 (claim C8). -/
def mouseOtherRules (speeds : List ℚ) (events : List MouseEvent) : ℤ :=
  (if mean speeds > 3000 then 20 else 0) +
    (if events.length > 20 ∧
        (straightLineCount events : ℚ) / ((events.length : ℚ) - 3) > 7/10 then 15 else 0) +
    (if speeds.length > 10 ∧
        (rapidChanges speeds : ℚ) / ((speeds.length : ℚ) - 1) > 2/5 then 20 else 0)

/-! ## Concrete scenario inputs -/

/-- The input in which only ScreenSharing is triggered. -/
def screenOnly : FusionInput := { noData with screen_data := some ⟨true, []⟩ }

/-- The two-domain input of the HIGH example scenario. -/
def vmRemoteInput : FusionInput :=
  { noData with vm_data := some ⟨true, some 60, []⟩, remote_data := some ⟨true, 80, []⟩ }

/-- An input whose capped fused total is exactly 74.995. -/
def nearCriticalInput : FusionInput :=
  { noData with remote_data := some ⟨true, 1874875/10000, []⟩ }

/-- Exactly 20 equal speed samples. -/
def speeds20 : List ℚ := List.replicate 20 1

/-- 21 zero speed samples (mechanically consistent). -/
def speeds21 : List ℚ := List.replicate 21 0

/-! ## Helper lemmas -/

theorem rnd_ge_floor (q : ℚ) : ⌊q⌋ ≤ rnd q := by
  unfold rnd
  split_ifs <;> omega

theorem rnd_le_floor_add_one (q : ℚ) : rnd q ≤ ⌊q⌋ + 1 := by
  unfold rnd
  split_ifs <;> omega

theorem rnd_mono {x y : ℚ} (h : x ≤ y) : rnd x ≤ rnd y := by
  rcases eq_or_lt_of_le (Int.floor_le_floor h) with heq | hlt
  · unfold rnd
    rw [← heq]
    split_ifs <;> first | omega | (exfalso; linarith)
  · calc rnd x ≤ ⌊x⌋ + 1 := rnd_le_floor_add_one x
      _ ≤ ⌊y⌋ := by omega
      _ ≤ rnd y := rnd_ge_floor y

theorem round2_mono {x y : ℚ} (h : x ≤ y) : round2 x ≤ round2 y := by
  have h1 : x * 100 ≤ y * 100 := by linarith
  have h2 : ((rnd (x * 100) : ℤ) : ℚ) ≤ ((rnd (y * 100) : ℤ) : ℚ) := by
    exact_mod_cast rnd_mono h1
  unfold round2
  linarith

theorem analyze_risk_score (d : FusionInput) :
    (analyze d).risk_score = round2 (totalRisk d) := by
  simp only [analyze]
  split_ifs <;> rfl

theorem analyze_risk_level (d : FusionInput) :
    (analyze d).risk_level = specLevelOf (totalRisk d) := by
  simp only [analyze, specLevelOf]
  split_ifs <;> rfl

theorem analyze_actions_eq (d : FusionInput) :
    (analyze d).actions = specActionsOf ((analyze d).risk_level) := by
  simp only [analyze]
  split_ifs <;> rfl

theorem risk_score_mono {a b : FusionInput} (h : rawScore a ≤ rawScore b) :
    (analyze a).risk_score ≤ (analyze b).risk_score := by
  rw [analyze_risk_score, analyze_risk_score]
  exact round2_mono (min_le_min h le_rfl)

theorem analyze_congr {a b : FusionInput} (hs : rawScore a = rawScore b)
    (ht : triggersOf a = triggersOf b) : analyze a = analyze b := by
  simp only [analyze, totalRisk, hs, ht]

theorem vmSection_zeroFill (o : Option VmData) :
    vmSection (some (o.getD ⟨false, none, []⟩)) = vmSection o := by
  cases o <;> rfl

theorem remoteSection_zeroFill (o : Option RemoteData) :
    remoteSection (some (o.getD ⟨false, 0, []⟩)) = remoteSection o := by
  cases o <;> rfl

theorem screenSection_zeroFill (o : Option ScreenData) :
    screenSection (some (o.getD ⟨false, []⟩)) = screenSection o := by
  cases o <;> rfl

theorem behaviorSection_zeroFill (o : Option BehaviorData) :
    behaviorSection (some (o.getD ⟨false, 0⟩)) = behaviorSection o := by
  cases o <;> rfl

theorem networkSection_zeroFill (o : Option NetworkData) :
    networkSection (some (o.getD ⟨false, 0, []⟩)) = networkSection o := by
  cases o <;> rfl

theorem processSection_zeroFill (o : Option ProcessData) :
    processSection (some (o.getD ⟨false⟩)) = processSection o := by
  cases o <;> rfl

theorem vmTriggers_zeroFill (o : Option VmData) :
    vmTriggers (some (o.getD ⟨false, none, []⟩)) = vmTriggers o := by
  cases o <;> rfl

theorem remoteTriggers_zeroFill (o : Option RemoteData) :
    remoteTriggers (some (o.getD ⟨false, 0, []⟩)) = remoteTriggers o := by
  cases o <;> rfl

theorem screenTriggers_zeroFill (o : Option ScreenData) :
    screenTriggers (some (o.getD ⟨false, []⟩)) = screenTriggers o := by
  cases o <;> rfl

theorem behaviorTriggers_zeroFill (o : Option BehaviorData) :
    behaviorTriggers (some (o.getD ⟨false, 0⟩)) = behaviorTriggers o := by
  cases o <;> rfl

theorem networkTriggers_zeroFill (o : Option NetworkData) :
    networkTriggers (some (o.getD ⟨false, 0, []⟩)) = networkTriggers o := by
  cases o <;> rfl

theorem processTriggers_zeroFill (o : Option ProcessData) :
    processTriggers (some (o.getD ⟨false⟩)) = processTriggers o := by
  cases o <;> rfl

theorem rawScore_zeroFill (d : FusionInput) : rawScore (zeroFill d) = rawScore d := by
  simp only [rawScore, zeroFill, vmSection_zeroFill, remoteSection_zeroFill,
    screenSection_zeroFill, behaviorSection_zeroFill, networkSection_zeroFill,
    processSection_zeroFill]

theorem triggersOf_zeroFill (d : FusionInput) : triggersOf (zeroFill d) = triggersOf d := by
  simp only [triggersOf, zeroFill, vmTriggers_zeroFill, remoteTriggers_zeroFill,
    screenTriggers_zeroFill, behaviorTriggers_zeroFill, networkTriggers_zeroFill,
    processTriggers_zeroFill]

theorem vmSection_keep (o : Option VmData) : vmSection (keepVm o) = vmSection o := by
  cases o with
  | none => rfl
  | some v =>
    rcases v with ⟨iv, c, ind⟩
    cases iv <;> rfl

theorem remoteSection_keep (o : Option RemoteData) :
    remoteSection (keepRemote o) = remoteSection o := by
  cases o with
  | none => rfl
  | some v =>
    rcases v with ⟨rd, r, fs⟩
    cases rd <;> rfl

theorem screenSection_keep (o : Option ScreenData) :
    screenSection (keepScreen o) = screenSection o := by
  cases o with
  | none => rfl
  | some v =>
    rcases v with ⟨sr, ds⟩
    cases sr <;> rfl

theorem behaviorSection_keep (o : Option BehaviorData) :
    behaviorSection (keepBehavior o) = behaviorSection o := by
  cases o with
  | none => rfl
  | some v =>
    rcases v with ⟨ba, a⟩
    cases ba <;> rfl

theorem networkSection_keep (o : Option NetworkData) :
    networkSection (keepNetwork o) = networkSection o := by
  cases o with
  | none => rfl
  | some v =>
    rcases v with ⟨ns, r, fs⟩
    cases ns <;> rfl

theorem processSection_keep (o : Option ProcessData) :
    processSection (keepProcess o) = processSection o := by
  cases o with
  | none => rfl
  | some v =>
    rcases v with ⟨ps⟩
    cases ps <;> rfl

theorem vmTriggers_keep (o : Option VmData) : vmTriggers (keepVm o) = vmTriggers o := by
  cases o with
  | none => rfl
  | some v =>
    rcases v with ⟨iv, c, ind⟩
    cases iv <;> rfl

theorem remoteTriggers_keep (o : Option RemoteData) :
    remoteTriggers (keepRemote o) = remoteTriggers o := by
  cases o with
  | none => rfl
  | some v =>
    rcases v with ⟨rd, r, fs⟩
    cases rd <;> rfl

theorem screenTriggers_keep (o : Option ScreenData) :
    screenTriggers (keepScreen o) = screenTriggers o := by
  cases o with
  | none => rfl
  | some v =>
    rcases v with ⟨sr, ds⟩
    cases sr <;> rfl

theorem behaviorTriggers_keep (o : Option BehaviorData) :
    behaviorTriggers (keepBehavior o) = behaviorTriggers o := by
  cases o with
  | none => rfl
  | some v =>
    rcases v with ⟨ba, a⟩
    cases ba <;> rfl

theorem networkTriggers_keep (o : Option NetworkData) :
    networkTriggers (keepNetwork o) = networkTriggers o := by
  cases o with
  | none => rfl
  | some v =>
    rcases v with ⟨ns, r, fs⟩
    cases ns <;> rfl

theorem processTriggers_keep (o : Option ProcessData) :
    processTriggers (keepProcess o) = processTriggers o := by
  cases o with
  | none => rfl
  | some v =>
    rcases v with ⟨ps⟩
    cases ps <;> rfl

theorem rawScore_keep (d : FusionInput) : rawScore (keepTriggered d) = rawScore d := by
  simp only [rawScore, keepTriggered, vmSection_keep, remoteSection_keep,
    screenSection_keep, behaviorSection_keep, networkSection_keep, processSection_keep]

theorem triggersOf_keep (d : FusionInput) : triggersOf (keepTriggered d) = triggersOf d := by
  simp only [triggersOf, keepTriggered, vmTriggers_keep, remoteTriggers_keep,
    screenTriggers_keep, behaviorTriggers_keep, networkTriggers_keep, processTriggers_keep]

/-! ## Claims about the fusion engine -/

/-- Claim C1, counterexample to the stated weights: an input in which only
ScreenSharing is triggered yields fused risk score 20 and level LOW, not
25 and MEDIUM as claimed (the engine weighs screen at 0.20, not 0.25). -/
theorem claim_C1_cex :
    (analyze screenOnly).risk_score = 20 ∧
    (analyze screenOnly).risk_level = RiskLevel.LOW ∧
    ¬((analyze screenOnly).risk_score = 25 ∧
      (analyze screenOnly).risk_level = RiskLevel.MEDIUM) := by
  have ht : totalRisk screenOnly = 20 := by
    norm_num [totalRisk, rawScore, screenOnly, noData, vmSection, remoteSection,
      screenSection, behaviorSection, networkSection, processSection, weight_vm,
      weight_remote, weight_screen, weight_anomaly, weight_ids]
  have hs : (analyze screenOnly).risk_score = 20 := by
    rw [analyze_risk_score, ht]
    norm_num [round2, rnd]
  have hl : (analyze screenOnly).risk_level = RiskLevel.LOW := by
    rw [analyze_risk_level, ht]
    norm_num [specLevelOf]
  refine ⟨hs, hl, fun hc => ?_⟩
  rw [hs] at hc
  exact absurd hc.1 (by norm_num)

/-- Claim C1 (amended): each triggered domain contributes weight ×
normalized score to the fused total, with the fixed constants VM 0.35,
RemoteAccess 0.40, BehavioralAnomaly 0.15, Network 0.25, a flat
0.20 × 100 for ScreenSharing when triggered, and a flat 15 for
ProcessForensics when triggered; an input in which only ScreenSharing is
triggered yields fused risk score 20 and risk level LOW. -/
theorem claim_C1 :
    (∀ (c r a n : ℚ) (iv rd sd ba ns pb : Bool) (ind fr fn dets : List String),
        rawScore ⟨some ⟨iv, some c, ind⟩, some ⟨rd, r, fr⟩, some ⟨sd, dets⟩,
            some ⟨ba, a⟩, some ⟨ns, n, fn⟩, some ⟨pb⟩⟩ =
          (if iv then 35/100 * c else 0) + (if rd then 40/100 * r else 0) +
            (if sd then 20/100 * 100 else 0) + (if ba then 15/100 * a else 0) +
            (if ns then 25/100 * n else 0) + (if pb then 15 else 0)) ∧
    (∀ dets : List String,
        (analyze { noData with screen_data := some ⟨true, dets⟩ }).risk_score = 20 ∧
        (analyze { noData with screen_data := some ⟨true, dets⟩ }).risk_level =
          RiskLevel.LOW) := by
  constructor
  · intro c r a n iv rd sd ba ns pb ind fr fn dets
    simp only [rawScore, vmSection, remoteSection, screenSection, behaviorSection,
      networkSection, processSection, Option.getD_some, weight_vm, weight_remote,
      weight_screen, weight_anomaly, weight_ids]
    cases iv <;> cases rd <;> cases sd <;> cases ba <;> cases ns <;> cases pb <;>
      norm_num <;> ring
  · intro dets
    have ht : totalRisk { noData with screen_data := some ⟨true, dets⟩ } = 20 := by
      norm_num [totalRisk, rawScore, noData, vmSection, remoteSection, screenSection,
        behaviorSection, networkSection, processSection, weight_vm, weight_remote,
        weight_screen, weight_anomaly, weight_ids]
    constructor
    · rw [analyze_risk_score, ht]
      norm_num [round2, rnd]
    · rw [analyze_risk_level, ht]
      norm_num [specLevelOf]

/-- Claim C2: Virtualization triggered with confidence 60 and RemoteAccess
triggered with risk 80, all other domains absent, yields fused risk score
53 (0.35×60 + 0.40×80), level HIGH and the HIGH action set. -/
theorem claim_C2 :
    (analyze vmRemoteInput).risk_score = 53 ∧
    (analyze vmRemoteInput).risk_level = RiskLevel.HIGH ∧
    (analyze vmRemoteInput).actions =
      [Action.WARN_USER, Action.ENABLE_STRICT_LOGGING, Action.DISABLE_CLIPBOARD] := by
  have ht : totalRisk vmRemoteInput = 53 := by
    norm_num [totalRisk, rawScore, vmRemoteInput, noData, vmSection, remoteSection,
      screenSection, behaviorSection, networkSection, processSection, weight_vm,
      weight_remote, weight_screen, weight_anomaly, weight_ids]
  have hl : (analyze vmRemoteInput).risk_level = RiskLevel.HIGH := by
    rw [analyze_risk_level, ht]
    norm_num [specLevelOf]
  refine ⟨?_, hl, ?_⟩
  · rw [analyze_risk_score, ht]
    norm_num [round2, rnd]
  · rw [analyze_actions_eq, hl]
    rfl

/-- Claim C3: the verdict's risk level is the inclusive-lower-bound step
function of the capped fused score (breakpoints 75 / 50 / 25, with the
stated boundary values), and the action set is a pure function of the
level as tabulated. -/
theorem claim_C3 :
    (∀ d : FusionInput,
        (analyze d).risk_level = specLevelOf (totalRisk d) ∧
        (analyze d).actions = specActionsOf ((analyze d).risk_level)) ∧
    specLevelOf 75 = RiskLevel.CRITICAL ∧ specLevelOf (74999/1000) = RiskLevel.HIGH ∧
    specLevelOf 50 = RiskLevel.HIGH ∧ specLevelOf 25 = RiskLevel.MEDIUM ∧
    specLevelOf (24999/1000) = RiskLevel.LOW := by
  refine ⟨fun d => ⟨analyze_risk_level d, analyze_actions_eq d⟩, ?_, ?_, ?_, ?_, ?_⟩ <;>
    norm_num [specLevelOf]

/-- Claim C4: `analyze` is total over partial input: absent domain dicts
behave exactly like explicit non-triggering zero-score dicts, and the
verdict depends only on the present, triggered domains. -/
theorem claim_C4 (d : FusionInput) :
    analyze (zeroFill d) = analyze d ∧ analyze (keepTriggered d) = analyze d :=
  ⟨analyze_congr (rawScore_zeroFill d) (triggersOf_zeroFill d),
   analyze_congr (rawScore_keep d) (triggersOf_keep d)⟩

/-- Claim C5: raising one triggered domain's score (confidence for
Virtualization, risk score for RemoteAccess and Network, anomaly score
for BehavioralAnomaly) while holding everything else fixed never lowers
the fused risk score. -/
theorem claim_C5 :
    (∀ (d : FusionInput) (ind : List String) (c₁ c₂ : ℚ), c₁ ≤ c₂ →
        (analyze { d with vm_data := some ⟨true, some c₁, ind⟩ }).risk_score ≤
          (analyze { d with vm_data := some ⟨true, some c₂, ind⟩ }).risk_score) ∧
    (∀ (d : FusionInput) (fs : List String) (r₁ r₂ : ℚ), r₁ ≤ r₂ →
        (analyze { d with remote_data := some ⟨true, r₁, fs⟩ }).risk_score ≤
          (analyze { d with remote_data := some ⟨true, r₂, fs⟩ }).risk_score) ∧
    (∀ (d : FusionInput) (a₁ a₂ : ℚ), a₁ ≤ a₂ →
        (analyze { d with behavior_data := some ⟨true, a₁⟩ }).risk_score ≤
          (analyze { d with behavior_data := some ⟨true, a₂⟩ }).risk_score) ∧
    (∀ (d : FusionInput) (fs : List String) (n₁ n₂ : ℚ), n₁ ≤ n₂ →
        (analyze { d with network_data := some ⟨true, n₁, fs⟩ }).risk_score ≤
          (analyze { d with network_data := some ⟨true, n₂, fs⟩ }).risk_score) := by
  refine ⟨?_, ?_, ?_, ?_⟩
  · intro d ind c₁ c₂ h
    apply risk_score_mono
    have e1 : vmSection (some ⟨true, some c₁, ind⟩) = 35/100 * c₁ := by
      show (35/100 : ℚ) * (c₁ / 100) * 100 = 35/100 * c₁
      ring
    have e2 : vmSection (some ⟨true, some c₂, ind⟩) = 35/100 * c₂ := by
      show (35/100 : ℚ) * (c₂ / 100) * 100 = 35/100 * c₂
      ring
    simp only [rawScore]
    rw [e1, e2]
    linarith
  · intro d fs r₁ r₂ h
    apply risk_score_mono
    have e1 : remoteSection (some ⟨true, r₁, fs⟩) = 40/100 * r₁ := rfl
    have e2 : remoteSection (some ⟨true, r₂, fs⟩) = 40/100 * r₂ := rfl
    simp only [rawScore]
    rw [e1, e2]
    linarith
  · intro d a₁ a₂ h
    apply risk_score_mono
    have e1 : behaviorSection (some ⟨true, a₁⟩) = 15/100 * a₁ := rfl
    have e2 : behaviorSection (some ⟨true, a₂⟩) = 15/100 * a₂ := rfl
    simp only [rawScore]
    rw [e1, e2]
    linarith
  · intro d fs n₁ n₂ h
    apply risk_score_mono
    have e1 : networkSection (some ⟨true, n₁, fs⟩) = 25/100 * n₁ := rfl
    have e2 : networkSection (some ⟨true, n₂, fs⟩) = 25/100 * n₂ := rfl
    simp only [rawScore]
    rw [e1, e2]
    linarith

/-- Witness for claim C5: concrete monotone instances in each of the four
domains. -/
theorem claim_C5_witness :
    ((10 : ℚ) ≤ 20 ∧
        (analyze { noData with vm_data := some ⟨true, some 10, []⟩ }).risk_score ≤
          (analyze { noData with vm_data := some ⟨true, some 20, []⟩ }).risk_score) ∧
    ((10 : ℚ) ≤ 20 ∧
        (analyze { noData with remote_data := some ⟨true, 10, []⟩ }).risk_score ≤
          (analyze { noData with remote_data := some ⟨true, 20, []⟩ }).risk_score) ∧
    ((10 : ℚ) ≤ 20 ∧
        (analyze { noData with behavior_data := some ⟨true, 10⟩ }).risk_score ≤
          (analyze { noData with behavior_data := some ⟨true, 20⟩ }).risk_score) ∧
    ((10 : ℚ) ≤ 20 ∧
        (analyze { noData with network_data := some ⟨true, 10, []⟩ }).risk_score ≤
          (analyze { noData with network_data := some ⟨true, 20, []⟩ }).risk_score) :=
  ⟨⟨by norm_num, claim_C5.1 noData [] 10 20 (by norm_num)⟩,
   ⟨by norm_num, claim_C5.2.1 noData [] 10 20 (by norm_num)⟩,
   ⟨by norm_num, claim_C5.2.2.1 noData 10 20 (by norm_num)⟩,
   ⟨by norm_num, claim_C5.2.2.2 noData [] 10 20 (by norm_num)⟩⟩

/-- Claim C9: a VM result with `is_vm` true but no confidence value is
given the default confidence 50, so Virtualization alone in that shape
contributes 0.35 × 50 = 17.5 to the fused risk score. -/
theorem claim_C9 :
    (∀ ind : List String, vmSection (some ⟨true, none, ind⟩) = 35/2) ∧
    (∀ ind : List String,
        (analyze { noData with vm_data := some ⟨true, none, ind⟩ }).risk_score = 35/2) := by
  have e : ∀ ind : List String, vmSection (some ⟨true, none, ind⟩) = 35/2 := by
    intro ind
    show (35/100 : ℚ) * (50 / 100) * 100 = 35/2
    norm_num
  refine ⟨e, fun ind => ?_⟩
  have ht : totalRisk { noData with vm_data := some ⟨true, none, ind⟩ } = 35/2 := by
    simp only [totalRisk, rawScore, e]
    norm_num [noData, remoteSection, screenSection, behaviorSection, networkSection,
      processSection]
  rw [analyze_risk_score, ht]
  norm_num [round2, rnd]

/-- Claim C10: the risk level is decided on the unrounded capped total
while the reported risk score is rounded to two decimals, so a capped
total in [74.995, 75) reports score 75.0 with level HIGH. -/
theorem claim_C10 (d : FusionInput) (h1 : 74995/1000 ≤ totalRisk d)
    (h2 : totalRisk d < 75) :
    (analyze d).risk_score = 75 ∧ (analyze d).risk_level = RiskLevel.HIGH := by
  have hf : ⌊totalRisk d * 100⌋ = 7499 := by
    rw [Int.floor_eq_iff]
    constructor
    · push_cast
      linarith
    · push_cast
      linarith
  constructor
  · rw [analyze_risk_score]
    unfold round2 rnd
    rw [hf]
    split_ifs with ha hb hc
    · exfalso
      push_cast at ha
      linarith
    · norm_num
    · exfalso
      omega
    · norm_num
  · rw [analyze_risk_level]
    unfold specLevelOf
    rw [if_neg (by linarith), if_pos (by linarith)]

/-- Witness for claim C10: a remote-only input whose capped total is
exactly 74.995. -/
theorem claim_C10_witness :
    74995/1000 ≤ totalRisk nearCriticalInput ∧ totalRisk nearCriticalInput < 75 ∧
    ((analyze nearCriticalInput).risk_score = 75 ∧
      (analyze nearCriticalInput).risk_level = RiskLevel.HIGH) := by
  have ht : totalRisk nearCriticalInput = 74995/1000 := by
    norm_num [totalRisk, rawScore, nearCriticalInput, noData, vmSection, remoteSection,
      screenSection, behaviorSection, networkSection, processSection, weight_vm,
      weight_remote, weight_screen, weight_anomaly, weight_ids]
  have h1 : 74995/1000 ≤ totalRisk nearCriticalInput := le_of_eq ht.symm
  have h2 : totalRisk nearCriticalInput < 75 := by
    rw [ht]
    norm_num
  exact ⟨h1, h2, claim_C10 nearCriticalInput h1 h2⟩

/-! ## Claims about the detectors -/

theorem pyint_eq_floor {q : ℚ} (h : 0 ≤ q) : pyint q = ⌊q⌋ := by
  unfold pyint
  rw [if_neg (not_lt.mpr h)]

theorem pyint_nonneg {q : ℚ} (h : 0 ≤ q) : 0 ≤ pyint q := by
  rw [pyint_eq_floor h]
  exact Int.floor_nonneg.mpr h

theorem pyint_le_hundred {q : ℚ} (h0 : 0 ≤ q) (h : q ≤ 100) : pyint q ≤ 100 := by
  rw [pyint_eq_floor h0]
  have h2 : (⌊q⌋ : ℚ) ≤ 100 := le_trans (Int.floor_le q) h
  exact_mod_cast h2

theorem mouseScoreRaw_nonneg (speeds : List ℚ) (events : List MouseEvent) :
    0 ≤ mouseScoreRaw speeds events := by
  unfold mouseScoreRaw
  split_ifs <;> norm_num

theorem keyboardScoreRaw_nonneg (intervals : List ℚ) : 0 ≤ keyboardScoreRaw intervals := by
  unfold keyboardScoreRaw
  split_ifs <;> norm_num

theorem mouse_bounds (speeds : List ℚ) (events : List MouseEvent) :
    0 ≤ (analyzeMouseBehavior speeds events).anomaly_score ∧
      (analyzeMouseBehavior speeds events).anomaly_score ≤ 100 := by
  unfold analyzeMouseBehavior
  split_ifs with h
  · exact ⟨le_refl 0, by norm_num⟩
  · exact ⟨le_min (mouseScoreRaw_nonneg speeds events) (by norm_num), min_le_right _ _⟩

theorem keyboard_bounds (intervals : List ℚ) :
    0 ≤ (analyzeKeyboardBehavior intervals).anomaly_score ∧
      (analyzeKeyboardBehavior intervals).anomaly_score ≤ 100 := by
  unfold analyzeKeyboardBehavior
  split_ifs with h
  · exact ⟨le_refl 0, by norm_num⟩
  · exact ⟨le_min (keyboardScoreRaw_nonneg intervals) (by norm_num), min_le_right _ _⟩

theorem behaviorDetect_score (sp : List ℚ) (ev : List MouseEvent) (iv : List ℚ) :
    (behaviorDetect sp ev iv).anomaly_score =
      min (pyint ((if (analyzeMouseBehavior sp ev).sufficient_data then
          ((analyzeMouseBehavior sp ev).anomaly_score : ℚ) * (1/2) else 0) +
        (if (analyzeKeyboardBehavior iv).sufficient_data then
          ((analyzeKeyboardBehavior iv).anomaly_score : ℚ) * (1/2) else 0))) 100 := rfl

theorem behaviorDetect_anomaly (sp : List ℚ) (ev : List MouseEvent) (iv : List ℚ) :
    (behaviorDetect sp ev iv).behavior_anomaly =
      decide ((behaviorDetect sp ev iv).anomaly_score > 40) := rfl

theorem behaviorDetect_insufficient {sp : List ℚ} {ev : List MouseEvent} {iv : List ℚ}
    (h1 : sp.length < 10) (h2 : iv.length < 10) :
    (behaviorDetect sp ev iv).anomaly_score = 0 ∧
      (behaviorDetect sp ev iv).behavior_anomaly = false := by
  have em : analyzeMouseBehavior sp ev = ⟨false, 0⟩ := by
    unfold analyzeMouseBehavior
    rw [if_pos h1]
  have ek : analyzeKeyboardBehavior iv = ⟨false, 0⟩ := by
    unfold analyzeKeyboardBehavior
    rw [if_pos h2]
  have hs : (behaviorDetect sp ev iv).anomaly_score = 0 := by
    rw [behaviorDetect_score, em, ek]
    norm_num [pyint]
  refine ⟨hs, ?_⟩
  rw [behaviorDetect_anomaly, hs]
  rfl

theorem behaviorSection_not_triggered (x : ℚ) :
    behaviorSection (some ⟨false, x⟩) = behaviorSection none := rfl

theorem behaviorTriggers_not_triggered (x : ℚ) :
    behaviorTriggers (some ⟨false, x⟩) = behaviorTriggers none := rfl

theorem mean_replicate {n : ℕ} {c : ℚ} (h : n ≠ 0) : mean (List.replicate n c) = c := by
  have hn : (n : ℚ) ≠ 0 := Nat.cast_ne_zero.mpr h
  simp [mean, List.sum_replicate, nsmul_eq_mul]
  field_simp

theorem svariance_replicate (n : ℕ) (c : ℚ) : svariance (List.replicate n c) = 0 := by
  rcases Nat.eq_zero_or_pos n with h | h
  · subst h
    simp [svariance, mean]
  · have hm := @mean_replicate n c (Nat.pos_iff_ne_zero.mp h)
    simp [svariance, hm, List.map_replicate]

theorem rapidChanges_replicate (n : ℕ) (c : ℚ) : rapidChanges (List.replicate n c) = 0 := by
  unfold rapidChanges
  rw [List.length_eq_zero, List.filter_eq_nil_iff]
  intro i hi
  rw [List.mem_range, List.length_replicate] at hi
  have h1 : (List.replicate n c).getD i 0 = c := by
    rw [List.getD_eq_getElem?_getD, List.getElem?_replicate, if_pos (by omega)]
    rfl
  have h2 : (List.replicate n c).getD (i + 1) 0 = c := by
    rw [List.getD_eq_getElem?_getD, List.getElem?_replicate, if_pos (by omega)]
    rfl
  rw [h1, h2]
  norm_num

/-- Claim C6: for every detector aggregation, the reported score is
within [0, 100] (the scores are naturals except the behavioural one,
which is an int) and the trigger flag equals (score > threshold), with
threshold 30 everywhere except 40 for the behavioural detector. -/
theorem claim_C6 :
    (∀ proc vendor mac reg cpu : Bool,
        (vmDetect proc vendor mac reg cpu).confidence ≤ 100 ∧
        ((vmDetect proc vendor mac reg cpu).is_vm = true ↔
          (vmDetect proc vendor mac reg cpu).confidence > 30)) ∧
    (∀ proc rdp net reg : Bool,
        (remoteDetect proc rdp net reg).risk_score ≤ 100 ∧
        ((remoteDetect proc rdp net reg).remote_detected = true ↔
          (remoteDetect proc rdp net reg).risk_score > 30)) ∧
    (∀ (dc : ℕ) (sh : Bool),
        (screenDetect dc sh).risk_level ≤ 100 ∧
        ((screenDetect dc sh).screen_sharing_risk = true ↔
          (screenDetect dc sh).risk_level > 30)) ∧
    (∀ (conns : List NetConn) (mb : Bool) (send recv : ℚ),
        (networkDetect conns mb send recv).risk_score ≤ 100 ∧
        ((networkDetect conns mb send recv).network_suspicious = true ↔
          (networkDetect conns mb send recv).risk_score > 30)) ∧
    (∀ susp hidden inject : Bool,
        (processAnalyze susp hidden inject).risk_score ≤ 100 ∧
        ((processAnalyze susp hidden inject).process_suspicious = true ↔
          (processAnalyze susp hidden inject).risk_score > 30)) ∧
    (∀ startup driver service : Bool,
        (integrityAnalyze startup driver service).risk_score ≤ 100 ∧
        ((integrityAnalyze startup driver service).integrity_compromised = true ↔
          (integrityAnalyze startup driver service).risk_score > 30)) ∧
    (∀ (sp : List ℚ) (ev : List MouseEvent) (iv : List ℚ),
        0 ≤ (behaviorDetect sp ev iv).anomaly_score ∧
        (behaviorDetect sp ev iv).anomaly_score ≤ 100 ∧
        ((behaviorDetect sp ev iv).behavior_anomaly = true ↔
          (behaviorDetect sp ev iv).anomaly_score > 40)) := by
  refine ⟨?_, ?_, ?_, ?_, ?_, ?_, ?_⟩
  · intro a b c d e
    cases a <;> cases b <;> cases c <;> cases d <;> cases e <;> decide
  · intro a b c d
    cases a <;> cases b <;> cases c <;> cases d <;> decide
  · intro dc sh
    constructor
    · simp only [screenDetect]
      split_ifs <;> norm_num
    · simp only [screenDetect, decide_eq_true_eq]
  · intro conns mb send recv
    constructor
    · exact min_le_right _ _
    · simp only [networkDetect, decide_eq_true_eq]
  · intro a b c
    cases a <;> cases b <;> cases c <;> decide
  · intro a b c
    cases a <;> cases b <;> cases c <;> decide
  · intro sp ev iv
    have hm := mouse_bounds sp ev
    have hk := keyboard_bounds iv
    have hm0 : (0 : ℚ) ≤ ((analyzeMouseBehavior sp ev).anomaly_score : ℚ) := by
      exact_mod_cast hm.1
    have hk0 : (0 : ℚ) ≤ ((analyzeKeyboardBehavior iv).anomaly_score : ℚ) := by
      exact_mod_cast hk.1
    refine ⟨?_, ?_, ?_⟩
    · rw [behaviorDetect_score]
      refine le_min (pyint_nonneg ?_) (by norm_num)
      split_ifs <;> linarith
    · rw [behaviorDetect_score]
      exact min_le_right _ _
    · rw [behaviorDetect_anomaly]
      simp only [decide_eq_true_eq]

/-- Claim C7, counterexample to the exact weighting formula: with 21
mechanically consistent mouse samples and no keyboard data, the mouse
sub-score is 25 and the keyboard side has insufficient data, yet the
overall anomaly score is 12, not 0.5 × 25 + 0.5 × 0 = 12.5 — `detect`
truncates the weighted sum with `int()`. -/
theorem claim_C7_cex :
    (analyzeMouseBehavior speeds21 []).sufficient_data = true ∧
    (analyzeMouseBehavior speeds21 []).anomaly_score = 25 ∧
    (analyzeKeyboardBehavior ([] : List ℚ)).sufficient_data = false ∧
    (behaviorDetect speeds21 [] []).anomaly_score = 12 ∧
    ((behaviorDetect speeds21 [] []).anomaly_score : ℚ) ≠
      (1/2) * ((analyzeMouseBehavior speeds21 []).anomaly_score : ℚ) +
        (1/2) * ((analyzeKeyboardBehavior ([] : List ℚ)).anomaly_score : ℚ) := by
  have hv : svariance (List.replicate 21 (0 : ℚ)) = 0 := svariance_replicate 21 0
  have hmn : mean (List.replicate 21 (0 : ℚ)) = 0 := mean_replicate (by norm_num)
  have hr : rapidChanges (List.replicate 21 (0 : ℚ)) = 0 := rapidChanges_replicate 21 0
  have hraw : mouseScoreRaw speeds21 [] = 25 := by
    norm_num [mouseScoreRaw, speeds21, List.length_replicate, hv, hmn, hr]
  have hmouse : analyzeMouseBehavior speeds21 [] = ⟨true, 25⟩ := by
    unfold analyzeMouseBehavior
    rw [if_neg (by norm_num [speeds21, List.length_replicate]), hraw]
    norm_num
  have hkbd : analyzeKeyboardBehavior ([] : List ℚ) = ⟨false, 0⟩ := by
    unfold analyzeKeyboardBehavior
    rw [if_pos (by norm_num)]
  have hscore : (behaviorDetect speeds21 [] []).anomaly_score = 12 := by
    rw [behaviorDetect_score, hmouse, hkbd]
    norm_num [pyint]
  refine ⟨by rw [hmouse], by rw [hmouse], by rw [hkbd], hscore, ?_⟩
  rw [hscore, hmouse, hkbd]
  norm_num

/-- Claim C7 (amended): the overall anomaly score is the `int()`
truncation of 0.5 × mouse sub-score + 0.5 × keyboard sub-score, each side
independently capped at 100 before weighting and contributing only when
it has at least 10 samples; the score is 0 when neither side has enough
samples, and such an insufficient-data result contributes nothing to the
fused verdict. -/
theorem claim_C7 :
    (∀ (sp : List ℚ) (ev : List MouseEvent) (iv : List ℚ),
        (behaviorDetect sp ev iv).anomaly_score =
          pyint ((if (analyzeMouseBehavior sp ev).sufficient_data then
              ((analyzeMouseBehavior sp ev).anomaly_score : ℚ) * (1/2) else 0) +
            (if (analyzeKeyboardBehavior iv).sufficient_data then
              ((analyzeKeyboardBehavior iv).anomaly_score : ℚ) * (1/2) else 0))) ∧
    (∀ (sp : List ℚ) (ev : List MouseEvent) (iv : List ℚ), sp.length < 10 →
        behaviorDetect sp ev iv = behaviorDetect [] [] iv) ∧
    (∀ (sp : List ℚ) (ev : List MouseEvent) (iv : List ℚ), iv.length < 10 →
        behaviorDetect sp ev iv = behaviorDetect sp ev []) ∧
    (∀ (sp : List ℚ) (ev : List MouseEvent) (iv : List ℚ), sp.length < 10 →
        iv.length < 10 →
        (behaviorDetect sp ev iv).anomaly_score = 0 ∧
        (behaviorDetect sp ev iv).behavior_anomaly = false) ∧
    (∀ (d : FusionInput) (sp : List ℚ) (ev : List MouseEvent) (iv : List ℚ),
        sp.length < 10 → iv.length < 10 →
        analyze { d with behavior_data := some (behaviorDataOf (behaviorDetect sp ev iv)) } =
          analyze { d with behavior_data := none }) := by
  refine ⟨?_, ?_, ?_, ?_, ?_⟩
  · intro sp ev iv
    rw [behaviorDetect_score]
    have hm := mouse_bounds sp ev
    have hk := keyboard_bounds iv
    have hm0 : (0 : ℚ) ≤ ((analyzeMouseBehavior sp ev).anomaly_score : ℚ) := by
      exact_mod_cast hm.1
    have hm1 : ((analyzeMouseBehavior sp ev).anomaly_score : ℚ) ≤ 100 := by
      exact_mod_cast hm.2
    have hk0 : (0 : ℚ) ≤ ((analyzeKeyboardBehavior iv).anomaly_score : ℚ) := by
      exact_mod_cast hk.1
    have hk1 : ((analyzeKeyboardBehavior iv).anomaly_score : ℚ) ≤ 100 := by
      exact_mod_cast hk.2
    apply min_eq_left
    refine pyint_le_hundred ?_ ?_ <;> split_ifs <;> linarith
  · intro sp ev iv h
    have e : analyzeMouseBehavior sp ev = analyzeMouseBehavior [] [] := by
      unfold analyzeMouseBehavior
      rw [if_pos h, if_pos (by norm_num)]
    unfold behaviorDetect
    rw [e]
  · intro sp ev iv h
    have e : analyzeKeyboardBehavior iv = analyzeKeyboardBehavior [] := by
      unfold analyzeKeyboardBehavior
      rw [if_pos h, if_pos (by norm_num)]
    unfold behaviorDetect
    rw [e]
  · intro sp ev iv h1 h2
    exact behaviorDetect_insufficient h1 h2
  · intro d sp ev iv h1 h2
    obtain ⟨hs, hb⟩ := @behaviorDetect_insufficient sp ev iv h1 h2
    have e1 : behaviorSection (some (behaviorDataOf (behaviorDetect sp ev iv))) =
        behaviorSection none := by
      simp [behaviorSection, behaviorDataOf, hb]
    have e2 : behaviorTriggers (some (behaviorDataOf (behaviorDetect sp ev iv))) =
        behaviorTriggers none := by
      simp [behaviorTriggers, behaviorDataOf, hb]
    apply analyze_congr
    · simp only [rawScore, e1]
    · simp only [triggersOf, e2]

/-- Witness for claim C7: concrete instances of all five conjuncts. -/
theorem claim_C7_witness :
    ((behaviorDetect [] [] []).anomaly_score =
        pyint ((if (analyzeMouseBehavior [] []).sufficient_data then
            ((analyzeMouseBehavior [] []).anomaly_score : ℚ) * (1/2) else 0) +
          (if (analyzeKeyboardBehavior ([] : List ℚ)).sufficient_data then
            ((analyzeKeyboardBehavior ([] : List ℚ)).anomaly_score : ℚ) * (1/2) else 0))) ∧
    (([1] : List ℚ).length < 10 ∧ behaviorDetect [1] [] [] = behaviorDetect [] [] []) ∧
    (([1] : List ℚ).length < 10 ∧ behaviorDetect [] [] [1] = behaviorDetect [] [] []) ∧
    (([] : List ℚ).length < 10 ∧
      (behaviorDetect [] [] []).anomaly_score = 0 ∧
      (behaviorDetect [] [] []).behavior_anomaly = false) ∧
    analyze { noData with behavior_data := some (behaviorDataOf (behaviorDetect [] [] [])) } =
      analyze { noData with behavior_data := none } :=
  ⟨claim_C7.1 [] [] [],
   ⟨by norm_num, claim_C7.2.1 [1] [] [] (by norm_num)⟩,
   ⟨by norm_num, claim_C7.2.2.1 [] [] [1] (by norm_num)⟩,
   ⟨by norm_num, claim_C7.2.2.2.1 [] [] [] (by norm_num) (by norm_num)⟩,
   claim_C7.2.2.2.2 noData [] [] [] (by norm_num) (by norm_num)⟩

/-- Claim C8, counterexample to the "at least 20 samples" gate: with
exactly 20 speed samples of below-threshold variance the sub-check is not
evaluated, so no 25 points are added and the mouse score stays 0. -/
theorem claim_C8_cex :
    speeds20.length = 20 ∧ svariance speeds20 < 10 ∧
    mouseScoreRaw speeds20 [] = 0 ∧
    (analyzeMouseBehavior speeds20 []).anomaly_score = 0 := by
  have hv : svariance (List.replicate 20 (1 : ℚ)) = 0 := svariance_replicate 20 1
  have hmn : mean (List.replicate 20 (1 : ℚ)) = 1 := mean_replicate (by norm_num)
  have hr : rapidChanges (List.replicate 20 (1 : ℚ)) = 0 := rapidChanges_replicate 20 1
  have hraw : mouseScoreRaw speeds20 [] = 0 := by
    norm_num [mouseScoreRaw, speeds20, List.length_replicate, hv, hmn, hr]
  refine ⟨by norm_num [speeds20, List.length_replicate], ?_, hraw, ?_⟩
  · show svariance (List.replicate 20 (1 : ℚ)) < 10
    rw [hv]
    norm_num
  · unfold analyzeMouseBehavior
    rw [if_neg (by norm_num [speeds20, List.length_replicate]), hraw]
    norm_num

/-- Claim C8 (amended): the speed-variance sub-check adds exactly 25
points when the sample variance is below 10, and it is evaluated exactly
for collections of more than 20 speed samples (at least 21); at 20 or
fewer samples it contributes nothing. -/
theorem claim_C8 :
    (∀ (speeds : List ℚ) (events : List MouseEvent), 20 < speeds.length →
        svariance speeds < 10 →
        mouseScoreRaw speeds events = 25 + mouseOtherRules speeds events) ∧
    (∀ (speeds : List ℚ) (events : List MouseEvent), speeds.length ≤ 20 →
        mouseScoreRaw speeds events = mouseOtherRules speeds events) := by
  constructor
  · intro speeds events h1 h2
    unfold mouseScoreRaw mouseOtherRules
    rw [if_pos ⟨h1, h2⟩]
    ring
  · intro speeds events h
    unfold mouseScoreRaw mouseOtherRules
    rw [if_neg ?_]
    · ring
    · rintro ⟨hh, _⟩
      omega

/-- Witness for claim C8: 21 zero samples get the 25 points; 20 equal
samples do not. -/
theorem claim_C8_witness :
    (20 < speeds21.length ∧ svariance speeds21 < 10 ∧
      mouseScoreRaw speeds21 [] = 25 + mouseOtherRules speeds21 []) ∧
    (speeds20.length ≤ 20 ∧ mouseScoreRaw speeds20 [] = mouseOtherRules speeds20 []) := by
  have h1 : 20 < speeds21.length := by norm_num [speeds21, List.length_replicate]
  have h2 : svariance speeds21 < 10 := by
    show svariance (List.replicate 21 (0 : ℚ)) < 10
    rw [svariance_replicate]
    norm_num
  have h3 : speeds20.length ≤ 20 := by norm_num [speeds20, List.length_replicate]
  exact ⟨⟨h1, h2, claim_C8.1 speeds21 [] h1 h2⟩, ⟨h3, claim_C8.2 speeds20 [] h3⟩⟩

end VMDetection
